import Mathlib

/-!
Verification of the `ka_common` Conan recipe (`src/conanfile.py`) in a
shallow embedding.  The recipe is a lifecycle of callback stages
(`config_options`, `configure`, `requirements`, `build_requirements`,
`validate`, `generate`, `build`, `package`, `package_info`); each stage is
embedded as a pure Lean function over explicit data, and stages whose
effects are calls to external tools are embedded as the trace of actions
they emit.
-/

namespace KaCommon

/-- The build-context axes declared by `settings = "os", "compiler",
"build_type", "arch"` (conanfile.py line 17). -/
structure SettingsVector where
  os : String
  compiler : String
  build_type : String
  arch : String
deriving DecidableEq, Repr

/-- The option set of the recipe: `options = {"shared": [True, False],
"fPIC": [True, False]}` (line 18).  `fPIC` may be removed from the domain
by the resolver, so it is carried as an `Option Bool`: `none` means the
key is absent, `some b` means present with value `b`. -/
structure OptionSet where
  shared : Bool
  fPIC : Option Bool
deriving DecidableEq, Repr

/-- `default_options = {"shared": False, "fPIC": True}` (line 19). -/
def default_options : OptionSet :=
  { shared := false, fPIC := some true }

/-- `self.options.rm_safe(name)`: removes the named option from the domain
if present, and does nothing (raising no error) if it is already absent.
Only `fPIC` is ever removed by this recipe; removing an unknown or absent
name leaves the set unchanged. -/
def OptionSet.rm_safe (o : OptionSet) (name : String) : OptionSet :=
  if name = "fPIC" then { o with fPIC := none } else o

/-- `config_options` (lines 21-23): on Windows, remove `fPIC`. -/
def config_options (s : SettingsVector) (o : OptionSet) : OptionSet :=
  if s.os = "Windows" then o.rm_safe "fPIC" else o

/-- `configure` (lines 25-27): if `shared` is set, remove `fPIC`. -/
def configure (o : OptionSet) : OptionSet :=
  if o.shared then o.rm_safe "fPIC" else o

/-- The Option Resolver: the driving process runs `config_options` and then
`configure` on the supplied option values, producing the finalized
`OptionSet`. -/
def resolveOptions (s : SettingsVector) (o : OptionSet) : OptionSet :=
  configure (config_options s o)

/-- An input option vector as supplied by the driving process: every
declared option carries a value (the default unless overridden), so
`fPIC` enters the resolver as `some fPIC`. -/
def inputOptions (shared fPIC : Bool) : OptionSet :=
  { shared := shared, fPIC := some fPIC }

/-- Dependency roles: `self.requires` declares a runtime requirement,
`self.test_requires` a build/test-only requirement. -/
inductive Role where
  | runtime
  | buildTestOnly
deriving DecidableEq, Repr

/-- One entry of the RequirementSpec: dependency name, exact version pin,
and propagation role. -/
structure Requirement where
  depName : String
  version : String
  role : Role
deriving DecidableEq, Repr

/-- `requirements` (lines 29-30): `self.requires("fmt/9.1.0")`. -/
def requirements : List Requirement :=
  [{ depName := "fmt", version := "9.1.0", role := Role.runtime }]

/-- `build_requirements` (lines 32-33): `self.test_requires("gtest/1.17.0")`. -/
def build_requirements : List Requirement :=
  [{ depName := "gtest", version := "1.17.0", role := Role.buildTestOnly }]

/-- The full declared RequirementSpec of the recipe. -/
def requirementSpec : List Requirement :=
  requirements ++ build_requirements

/-- The consumer-visible PackageLayout produced by `package_info`
(lines 66-69). -/
structure PackageLayout where
  builddirs : List String
  cmake_target_name : String
  libs : List String
deriving DecidableEq, Repr

/-- `package_info` (lines 66-69): `builddirs = ["cmake"]`, cmake target
name `ka::common`, `libs = ["ka_common"]`. -/
def package_info : PackageLayout :=
  { builddirs := ["cmake"]
    cmake_target_name := "ka::common"
    libs := ["ka_common"] }

/-- The two generation effects of `generate` (lines 47-51). -/
inductive GenAction where
  | depsDescriptors
  | toolchainDescriptors
deriving DecidableEq, Repr

/-- `generate` (lines 47-51): `CMakeDeps(self).generate()` then
`CMakeToolchain(self).generate()`, embedded as the ordered trace of
generation effects. -/
def generate : List GenAction :=
  [GenAction.depsDescriptors, GenAction.toolchainDescriptors]

/-- The external build-tool invocations issued by `build` (lines 53-58). -/
inductive BuildAction where
  | cmakeConfigure
  | cmakeBuild
  | ctest (cli_args : List String)
deriving DecidableEq, Repr

/-- `self.conf.get("tools.build:skip_test", default=False)`: the
configuration value when the driving process set it, `none` when unset. -/
def skip_test (conf : Option Bool) : Bool :=
  conf.getD false

/-- `build` (lines 53-58): configure, build, then — unless the skip-tests
flag resolves to true — run ctest with `--output-on-failure`.  Embedded as
the ordered trace of external build-tool invocations; the trace assumes
each step succeeds (a non-zero exit would abort the stage). -/
def build (conf : Option Bool) : List BuildAction :=
  [BuildAction.cmakeConfigure, BuildAction.cmakeBuild] ++
    (if skip_test conf then [] else [BuildAction.ctest ["--output-on-failure"]])

/-- Counts the test-run invocations in a build trace. -/
def countCtest (trace : List BuildAction) : Nat :=
  (trace.filter fun a => match a with
    | BuildAction.ctest _ => true
    | _ => false).length

/-- Whether every test-run invocation in a trace passes
`--output-on-failure` (verbose-on-failure reporting). -/
def ctestVerboseOnFailure (trace : List BuildAction) : Bool :=
  trace.all fun a => match a with
    | BuildAction.ctest args => args.contains "--output-on-failure"
    | _ => true

/-- The error taxonomy of the spec that is visible to the embedded stages. -/
inductive ConfigurationError where
  | cppstdBelowMinimum (found minimum : Nat)
  | packageBeforeBuilt
deriving DecidableEq, Repr

/-- Modelled from the spec: `check_min_cppstd` is Conan library code, not
part of this repository; the spec's minimum-language-version gate says the
recipe "validates that the consuming build environment supports at least a
specified language-standard version; violation is a fatal, non-recoverable
validation error".  The environment's supported standard and the minimum
are compared as numeric standard versions. -/
def check_min_cppstd (envCppstd : Nat) (minimum : Nat) :
    Except ConfigurationError Unit :=
  if envCppstd < minimum then
    Except.error (ConfigurationError.cppstdBelowMinimum envCppstd minimum)
  else
    Except.ok ()

/-- `validate` (lines 41-42): `check_min_cppstd(self, "20")`. -/
def validate (envCppstd : Nat) : Except ConfigurationError Unit :=
  check_min_cppstd envCppstd 20

/-- The lifecycle from validation onward: the driving process runs
`validate` before any build stage; a validation error halts the lifecycle
and no build-tool invocation is issued. -/
def lifecycleFromValidate (envCppstd : Nat) (conf : Option Bool) :
    Except ConfigurationError (List BuildAction) := do
  _ ← validate envCppstd
  pure (build conf)

/-- The Build Orchestrator's lifecycle states (spec 4.5). -/
inductive BuildState where
  | unconfigured
  | configured
  | built
  | testedOrSkipped
  | terminal
deriving DecidableEq, Repr

/-- Whether the Build Orchestrator has reached at least the Built state. -/
def atLeastBuilt : BuildState → Bool
  | BuildState.unconfigured => false
  | BuildState.configured => false
  | BuildState.built => true
  | BuildState.testedOrSkipped => true
  | BuildState.terminal => true

/-- The packaging effects of `package` (lines 60-64). -/
inductive PackageAction where
  | cmakeInstall
  | copyCmakeDir
deriving DecidableEq, Repr

/-- Modelled from the spec: the driving process that enforces stage order
is the external Conan client, not code of this repository; the spec says
the Packager "must run only after 4.5 reaches Built or Tested-or-Skipped;
running earlier is a usage error (fatal)".  When allowed, the stage runs
`cmake.install()` then copies the `cmake/*` directory (lines 60-64). -/
def invokePackage (st : BuildState) :
    Except ConfigurationError (List PackageAction) :=
  if atLeastBuilt st then
    Except.ok [PackageAction.cmakeInstall, PackageAction.copyCmakeDir]
  else
    Except.error ConfigurationError.packageBeforeBuilt

/-- A concrete Windows build context. -/
def windowsSettings : SettingsVector :=
  { os := "Windows", compiler := "msvc", build_type := "Release", arch := "x86_64" }

/-- A concrete Linux build context. -/
def linuxSettings : SettingsVector :=
  { os := "Linux", compiler := "gcc", build_type := "Release", arch := "x86_64" }

/-- A second Linux build context differing from `linuxSettings` on every
axis except `os`. -/
def linuxClangSettings : SettingsVector :=
  { os := "Linux", compiler := "clang", build_type := "Debug", arch := "armv8" }

/-- Whether a string occurs anywhere in the consumer-visible PackageLayout
output. -/
def PackageLayout.mentions (l : PackageLayout) (s : String) : Bool :=
  l.builddirs.contains s || l.cmake_target_name == s || l.libs.contains s

/-- C1: for every SettingsVector whose operating system is Windows (the
Windows-family discriminator tested by `config_options`), the finalized
OptionSet has no `fPIC` key at all, regardless of the input values of
`shared` and `fPIC`. -/
theorem resolveOptions_windows_no_fPIC (s : SettingsVector) (o : OptionSet)
    (h : s.os = "Windows") : (resolveOptions s o).fPIC = none := by
  cases hs : o.shared <;>
    simp [resolveOptions, config_options, configure, OptionSet.rm_safe, h, hs]

/-- Witness for C1 at a concrete Windows context with `shared=true`,
`fPIC=false` supplied. -/
theorem resolveOptions_windows_no_fPIC_witness :
    windowsSettings.os = "Windows" ∧
      (resolveOptions windowsSettings (inputOptions true false)).fPIC = none :=
  ⟨rfl, resolveOptions_windows_no_fPIC windowsSettings (inputOptions true false) rfl⟩

/-- C2: for every input where `shared` is true and the operating system is
not Windows, the finalized OptionSet has no `fPIC` key. -/
theorem resolveOptions_shared_no_fPIC (s : SettingsVector) (o : OptionSet)
    (hsh : o.shared = true) (hos : s.os ≠ "Windows") :
    (resolveOptions s o).fPIC = none := by
  simp [resolveOptions, config_options, configure, OptionSet.rm_safe, hsh, hos]

/-- Witness for C2 at a concrete Linux context with `shared=true`. -/
theorem resolveOptions_shared_no_fPIC_witness :
    (inputOptions true true).shared = true ∧ linuxSettings.os ≠ "Windows" ∧
      (resolveOptions linuxSettings (inputOptions true true)).fPIC = none :=
  ⟨rfl, by decide,
    resolveOptions_shared_no_fPIC linuxSettings (inputOptions true true) rfl (by decide)⟩

/-- C3: for every input where `shared` is false and the operating system is
not Windows, the finalized OptionSet contains `fPIC` (with the supplied
value), and its value is true when the driving process supplied no
override (the default `fPIC=true`). -/
theorem resolveOptions_static_keeps_fPIC (s : SettingsVector) (b : Bool)
    (hos : s.os ≠ "Windows") :
    (resolveOptions s (inputOptions false b)).fPIC = some b ∧
      (resolveOptions s (inputOptions false true)).fPIC = some true := by
  constructor <;>
    simp [resolveOptions, config_options, configure, OptionSet.rm_safe,
      inputOptions, hos]

/-- Witness for C3 at a concrete Linux context. -/
theorem resolveOptions_static_keeps_fPIC_witness :
    linuxSettings.os ≠ "Windows" ∧
      ((resolveOptions linuxSettings (inputOptions false false)).fPIC = some false ∧
        (resolveOptions linuxSettings (inputOptions false true)).fPIC = some true) :=
  ⟨by decide, resolveOptions_static_keeps_fPIC linuxSettings false (by decide)⟩

/-- C4: the Option Resolver is idempotent — applying the `config_options`
then `configure` narrowing a second time to its own output yields the same
OptionSet — and removing an already-absent `fPIC` option is a no-op
(total, never an error). -/
theorem resolveOptions_idempotent (s : SettingsVector) (o : OptionSet) :
    resolveOptions s (resolveOptions s o) = resolveOptions s o ∧
      ∀ o2 : OptionSet, o2.fPIC = none → o2.rm_safe "fPIC" = o2 := by
  constructor
  · cases ho : o.shared <;> cases hos : decide (s.os = "Windows") <;>
      simp_all [resolveOptions, config_options, configure, OptionSet.rm_safe]
  · intro o2 h2
    cases o2
    simp_all [OptionSet.rm_safe]

/-- Witness for C4: the inner no-op clause discharged at a concrete
option set with absent `fPIC`. -/
theorem resolveOptions_idempotent_witness :
    resolveOptions linuxSettings (resolveOptions linuxSettings (inputOptions false true)) =
        resolveOptions linuxSettings (inputOptions false true) ∧
      OptionSet.rm_safe { shared := false, fPIC := none } "fPIC" =
        { shared := false, fPIC := none } :=
  ⟨(resolveOptions_idempotent linuxSettings (inputOptions false true)).1,
    (resolveOptions_idempotent linuxSettings (inputOptions false true)).2
      { shared := false, fPIC := none } rfl⟩

/-- C5: with the skip-tests flag unset (so it defaults to false), the build
trace invokes the test-run step exactly once, with verbose-on-failure
reporting; with the flag set to true, no test-run step is invoked and the
stage still completes with the configure and build steps. -/
theorem build_test_gating :
    countCtest (build none) = 1 ∧
      ctestVerboseOnFailure (build none) = true ∧
      countCtest (build (some true)) = 0 ∧
      build (some true) = [BuildAction.cmakeConfigure, BuildAction.cmakeBuild] := by
  decide

/-- C6: the RequirementSpec has exactly one runtime entry (fmt 9.1.0) and
exactly one build/test-only entry (gtest 1.17.0), and the build/test-only
dependency appears nowhere in the consumer-visible PackageLayout. -/
theorem requirementSpec_roles :
    requirementSpec.filter (fun r => decide (r.role = Role.runtime)) =
        [{ depName := "fmt", version := "9.1.0", role := Role.runtime }] ∧
      requirementSpec.filter (fun r => decide (r.role = Role.buildTestOnly)) =
        [{ depName := "gtest", version := "1.17.0", role := Role.buildTestOnly }] ∧
      package_info.mentions "gtest" = false := by
  decide

/-- C7: for every build environment whose supported C++ standard is below
the declared minimum (20), validation fails with a fatal configuration
error and the lifecycle produces no build-tool invocation. -/
theorem validate_cppstd_gate (envCppstd : Nat) (h : envCppstd < 20) :
    ∀ conf : Option Bool,
      lifecycleFromValidate envCppstd conf =
        Except.error (ConfigurationError.cppstdBelowMinimum envCppstd 20) := by
  intro conf
  simp [lifecycleFromValidate, validate, check_min_cppstd, h]

/-- Witness for C7 at C++17. -/
theorem validate_cppstd_gate_witness :
    17 < 20 ∧
      lifecycleFromValidate 17 none =
        Except.error (ConfigurationError.cppstdBelowMinimum 17 20) :=
  ⟨by decide, validate_cppstd_gate 17 (by decide) none⟩

/-- C8: invoking the Packager in any Build Orchestrator state before Built
yields a usage ConfigurationError and produces no packaging action. -/
theorem invokePackage_before_built (st : BuildState)
    (h : atLeastBuilt st = false) :
    invokePackage st = Except.error ConfigurationError.packageBeforeBuilt := by
  simp [invokePackage, h]

/-- Witness for C8 in the Unconfigured state. -/
theorem invokePackage_before_built_witness :
    atLeastBuilt BuildState.unconfigured = false ∧
      invokePackage BuildState.unconfigured =
        Except.error ConfigurationError.packageBeforeBuilt :=
  ⟨rfl, invokePackage_before_built BuildState.unconfigured rfl⟩

/-- C9: in the Generator stage's trace, the dependency-descriptor
generation strictly precedes toolchain-descriptor generation, and both
occur. -/
theorem generate_deps_before_toolchain :
    generate.indexOf GenAction.depsDescriptors <
        generate.indexOf GenAction.toolchainDescriptors ∧
      GenAction.depsDescriptors ∈ generate ∧
      GenAction.toolchainDescriptors ∈ generate := by
  decide

/-- Counterexample to C10 as stated: two runs with the same `settings.os`
and the same input value of `shared` (both false, on Linux) but different
input `fPIC` values produce different finalized OptionSets, so the result
does not depend only on the operating system and `shared`. -/
theorem resolveOptions_depends_on_fPIC_input :
    (inputOptions false true).shared = (inputOptions false false).shared ∧
      resolveOptions linuxSettings (inputOptions false true) ≠
        resolveOptions linuxSettings (inputOptions false false) := by
  decide

/-- C10 (amended): the Option Resolver is deterministic and depends only
on `settings.os` and the input OptionSet (`shared` and the supplied `fPIC`
value): two runs with the same `settings.os` and the same input OptionSet
yield identical finalized OptionSets; compiler, build_type and arch never
influence the result. -/
theorem resolveOptions_depends_only_on_os (s₁ s₂ : SettingsVector)
    (o : OptionSet) (h : s₁.os = s₂.os) :
    resolveOptions s₁ o = resolveOptions s₂ o := by
  simp [resolveOptions, config_options, h]

/-- Witness for C10 (amended): two Linux contexts differing on compiler,
build type and arch give the same resolved options. -/
theorem resolveOptions_depends_only_on_os_witness :
    linuxSettings.os = linuxClangSettings.os ∧
      resolveOptions linuxSettings (inputOptions false true) =
        resolveOptions linuxClangSettings (inputOptions false true) :=
  ⟨rfl, resolveOptions_depends_only_on_os linuxSettings linuxClangSettings
    (inputOptions false true) rfl⟩

end KaCommon
